import Mathlib

/-!
Shallow embedding of the non-blocking TLS client demos of the openssl-ddd
repository: the descriptor-binding demo (ddd-04-fd-nonblocking, demo 4) and
the memory-BIO demo contained in the same source file (demo 5).

The TLS engine (libssl) is an external black box.  A single engine call
(SSL_write / SSL_read, or BIO_write / BIO_read on the SSL BIO) is modelled by
the integer it returns together with the classification SSL_get_error would
give for that call; the wrappers under test inspect only these two pieces of
data.  Poll event sets are Nat bit masks with the Linux values POLLIN = 1,
POLLOUT = 4, POLLERR = 8.
-/

set_option linter.unusedVariables false

namespace DDD

/-- poll(2) readability interest / event bit. -/
def POLLIN : Nat := 1

/-- poll(2) writability interest / event bit. -/
def POLLOUT : Nat := 4

/-- poll(2) error interest / event bit. -/
def POLLERR : Nat := 8

/-- The classification SSL_get_error gives for an engine call that returned
a value less than or equal to zero.  Constructor other stands for every
code the demos do not name in a switch case (SSL_ERROR_SSL,
SSL_ERROR_SYSCALL, and so on); zero_return is the orderly peer close
signal SSL_ERROR_ZERO_RETURN. -/
inductive SSLError where
  | want_read
  | want_write
  | want_connect
  | zero_return
  | other
deriving DecidableEq

/-- One engine call, as observed by the wrapper code: the integer the call
returned (ret) and the SSL_get_error classification for that call (err).
The demos consult err only when ret is less than or equal to zero. -/
structure EngineResp where
  ret : Int
  err : SSLError
deriving DecidableEq

/-- Would-block causes of the abstract Engine interface.  NeedRead,
NeedWrite and NeedConnect correspond to SSL_ERROR_WANT_READ,
SSL_ERROR_WANT_WRITE and SSL_ERROR_WANT_CONNECT. -/
inductive WouldBlockCause where
  | NeedRead
  | NeedWrite
  | NeedConnect
deriving DecidableEq

/-- The would-block cause an engine response signals: defined exactly when
the call made no progress (ret less than or equal to zero) and the error
classification is one of the three WANT codes. -/
def engineCause (r : EngineResp) : Option WouldBlockCause :=
  if r.ret ≤ 0 then
    match r.err with
    | .want_read => some .NeedRead
    | .want_write => some .NeedWrite
    | .want_connect => some .NeedConnect
    | _ => none
  else
    none

/-- Resources a connection creation call can allocate. -/
inductive Res where
  | connRec
  | engine
  | internalBio
  | netBio
  | sslBioWrap
deriving DecidableEq

/-- Resource-accounting event: an allocation or a release of one resource. -/
inductive RAct where
  | alloc (r : Res)
  | release (r : Res)
deriving DecidableEq

/-- Resources allocated in a resource-accounting trace. -/
def allocsOf (tr : List RAct) : List Res :=
  tr.filterMap fun a =>
    match a with
    | .alloc r => some r
    | _ => none

/-- Resources released in a resource-accounting trace. -/
def releasesOf (tr : List RAct) : List Res :=
  tr.filterMap fun a =>
    match a with
    | .release r => some r
    | _ => none

/-- Resources allocated but never released in a trace. -/
def leaked (tr : List RAct) : List Res :=
  (allocsOf tr).filter fun r => !((releasesOf tr).contains r)

/-- Teardown actions.  closeNotify is the best-effort orderly TLS close
notification (SSL_shutdown); its argument records whether the attempt
succeeded, which the demo code never inspects. -/
inductive TdAct where
  | closeNotify (ok : Bool)
  | freeEngine
  | freeInternalBio
  | freeNetBio
  | freeSslBioWrap
  | freeConnRec
deriving DecidableEq

/-- Whether a teardown action is the orderly close notification attempt. -/
def isCloseNotify : TdAct → Bool
  | .closeNotify _ => true
  | _ => false

namespace FD

/-- Connection record of the descriptor-binding demo: the engine handle and
descriptor are opaque, the two directional hint flags are modelled. -/
structure APP_CONN where
  fd : Int
  rx_need_tx : Bool
  tx_need_rx : Bool
deriving DecidableEq

/-- Descriptor-binding tx: clears tx_need_rx, performs one SSL_write
(modelled by resp), classifies the outcome.  The WANT_READ case sets
tx_need_rx and falls through to the would-block return. -/
def tx (conn : APP_CONN) (resp : EngineResp) : APP_CONN × Int :=
  let conn := { conn with tx_need_rx := false }
  if resp.ret ≤ 0 then
    match resp.err with
    | .want_read => ({ conn with tx_need_rx := true }, -2)
    | .want_connect => (conn, -2)
    | .want_write => (conn, -2)
    | _ => (conn, -1)
  else
    (conn, resp.ret)

/-- Descriptor-binding rx: clears rx_need_tx, performs one SSL_read
(modelled by resp), classifies the outcome.  The WANT_WRITE case sets
rx_need_tx and falls through to the would-block return; WANT_CONNECT is
not a case of this switch and lands in the default branch. -/
def rx (conn : APP_CONN) (resp : EngineResp) : APP_CONN × Int :=
  let conn := { conn with rx_need_tx := false }
  if resp.ret ≤ 0 then
    match resp.err with
    | .want_write => ({ conn with rx_need_tx := true }, -2)
    | .want_read => (conn, -2)
    | _ => (conn, -1)
  else
    (conn, resp.ret)

/-- Events that may let SSL_write progress. -/
def get_conn_pending_tx (conn : APP_CONN) : Nat :=
  (if conn.tx_need_rx then POLLIN else 0) ||| POLLOUT ||| POLLERR

/-- Events that may let SSL_read progress. -/
def get_conn_pending_rx (conn : APP_CONN) : Nat :=
  (if conn.rx_need_tx then POLLOUT else 0) ||| POLLIN ||| POLLERR

/-- Descriptor-binding teardown: SSL_shutdown (result ignored), SSL_free,
free of the connection record. -/
def teardown (shutdownOk : Bool) : List TdAct :=
  [.closeNotify shutdownOk, .freeEngine, .freeConnRec]

/-- Failure points of descriptor-binding new_conn, in source order; okF
means every step succeeded. -/
inductive FailPoint where
  | callocF
  | sslNewF
  | setFdF
  | set1HostF
  | tlsextF
  | okF
deriving DecidableEq

/-- Resource accounting of descriptor-binding new_conn: for each failure
point, the allocation and release actions the code performs, in order, and
whether a connection is returned. -/
def new_conn (fail : FailPoint) : Option Unit × List RAct :=
  if fail = .callocF then (none, [])
  else
    let t : List RAct := [.alloc .connRec]
    if fail = .sslNewF then (none, t ++ [.release .connRec])
    else
      let t := t ++ [.alloc .engine]
      if fail = .setFdF then (none, t ++ [.release .engine, .release .connRec])
      else if fail = .set1HostF then (none, t ++ [.release .engine, .release .connRec])
      else if fail = .tlsextF then (none, t ++ [.release .engine, .release .connRec])
      else (some (), t)

end FD

namespace Mem

/-- The encrypted buffer pair of the memory-BIO demo, seen from the network
side (the net_bio end of BIO_new_bio_pair).  encIn holds encrypted bytes
written by the application towards the engine and is bounded by encInCap;
encOut holds encrypted bytes the engine has queued for the network. -/
structure BioPair where
  encIn : List Nat
  encInCap : Nat
  encOut : List Nat
deriving DecidableEq

/-- BIO_ctrl_get_write_guarantee on net_bio: remaining write capacity of
the encrypted-in buffer. -/
def net_rx_space (pr : BioPair) : Nat :=
  pr.encInCap - pr.encIn.length

/-- BIO_ctrl_pending on net_bio: bytes queued for transmission in the
encrypted-out buffer. -/
def net_tx_avail (pr : BioPair) : Nat :=
  pr.encOut.length

/-- BIO_read on net_bio (read_net_tx): takes up to cap queued bytes out of
the encrypted-out buffer. -/
def read_net_tx (pr : BioPair) (cap : Nat) : List Nat × BioPair :=
  (pr.encOut.take cap, { pr with encOut := pr.encOut.drop cap })

/-- BIO_write on net_bio (write_net_rx): appends as many of the given
bytes as capacity allows to the encrypted-in buffer and returns the
accepted count. -/
def write_net_rx (pr : BioPair) (bs : List Nat) : Nat × BioPair :=
  let n := min bs.length (net_rx_space pr)
  (n, { pr with encIn := pr.encIn ++ bs.take n })

/-- Connection record of the memory-BIO demo: the engine and BIO handles
are opaque; the directional hint flags and the encrypted buffer pair are
modelled. -/
structure APP_CONN where
  rx_need_tx : Bool
  tx_need_rx : Bool
  pair : BioPair
deriving DecidableEq

/-- Memory-binding tx: one BIO_write on the SSL BIO (modelled by resp),
then the classification switch.  Unlike the descriptor-binding tx, the
flag is not cleared at the start of the call: it is set in the WANT_READ
case and cleared only in the success branch.  The engine may move bytes in
the shared encrypted buffer pair during the call; that black-box side
effect is the pairAfter argument and is installed on every path. -/
def tx (conn : APP_CONN) (resp : EngineResp) (pairAfter : BioPair) :
    APP_CONN × Int :=
  let conn := { conn with pair := pairAfter }
  if resp.ret ≤ 0 then
    match resp.err with
    | .want_read => ({ conn with tx_need_rx := true }, -2)
    | .want_connect => (conn, -2)
    | .want_write => (conn, -2)
    | _ => (conn, -1)
  else
    ({ conn with tx_need_rx := false }, resp.ret)

/-- Memory-binding rx: one BIO_read on the SSL BIO (modelled by resp),
then the classification switch.  As in tx, the flag is cleared only in the
success branch; WANT_CONNECT is not a case of this switch and lands in the
default branch. -/
def rx (conn : APP_CONN) (resp : EngineResp) (pairAfter : BioPair) :
    APP_CONN × Int :=
  let conn := { conn with pair := pairAfter }
  if resp.ret ≤ 0 then
    match resp.err with
    | .want_write => ({ conn with rx_need_tx := true }, -2)
    | .want_read => (conn, -2)
    | _ => (conn, -1)
  else
    ({ conn with rx_need_tx := false }, resp.ret)

/-- Events that may let the send path progress (identical to the
descriptor-binding variant). -/
def get_conn_pending_tx (conn : APP_CONN) : Nat :=
  (if conn.tx_need_rx then POLLIN else 0) ||| POLLOUT ||| POLLERR

/-- Events that may let the receive path progress (identical to the
descriptor-binding variant). -/
def get_conn_pending_rx (conn : APP_CONN) : Nat :=
  (if conn.rx_need_tx then POLLOUT else 0) ||| POLLIN ||| POLLERR

/-- Memory-binding teardown: BIO_free_all on the SSL BIO (which, through
the BIO_CLOSE ownership set by BIO_set_ssl, frees the engine and with it
the internal half of the buffer pair; freeing sends no TLS close
notification), BIO_free_all on net_bio, free of the connection record. -/
def teardown : List TdAct :=
  [.freeSslBioWrap, .freeEngine, .freeInternalBio, .freeNetBio, .freeConnRec]

/-- Failure points of memory-binding new_conn, in source order; okF means
every step succeeded. -/
inductive FailPoint where
  | callocF
  | sslNewF
  | bioPairF
  | set1HostF
  | tlsextF
  | bioNewF
  | bioSetSslF
  | okF
deriving DecidableEq

/-- Resource accounting of memory-binding new_conn.  After
BIO_new_bio_pair succeeds, SSL_set_bio hands ownership of the internal
half to the engine, so a later SSL_free releases the engine and the
internal half but not the net half.  On the BIO_set_ssl failure path the
code frees the engine and the SSL BIO wrapper but not the connection
record. -/
def new_conn (fail : FailPoint) : Option Unit × List RAct :=
  if fail = .callocF then (none, [])
  else
    let t : List RAct := [.alloc .connRec]
    if fail = .sslNewF then (none, t ++ [.release .connRec])
    else
      let t := t ++ [.alloc .engine]
      if fail = .bioPairF then (none, t ++ [.release .engine, .release .connRec])
      else
        let t := t ++ [.alloc .internalBio, .alloc .netBio]
        if fail = .set1HostF then
          (none, t ++ [.release .engine, .release .internalBio, .release .connRec])
        else if fail = .tlsextF then
          (none, t ++ [.release .engine, .release .internalBio, .release .connRec])
        else if fail = .bioNewF then
          (none, t ++ [.release .engine, .release .internalBio, .release .connRec])
        else
          let t := t ++ [.alloc .sslBioWrap]
          if fail = .bioSetSslF then
            (none, t ++ [.release .engine, .release .internalBio, .release .sslBioWrap])
          else
            (some (), t)

/-- Outcome of one read(2) call on the real transport. -/
inductive ReadRes where
  | ok (bs : List Nat)
  | errAgain
  | errOther
deriving DecidableEq

/-- Observable transport-side actions of one pump call: the poll wait that
was performed, reads and writes on the real descriptor, and the stderr
diagnostics for short writes.  diagShort is the short-transport-write
message of the drain loop; diagShortW is the short write-through message
of the fill loop. -/
inductive Act where
  | polled (events : Nat) (timeout : Int)
  | fdRead (ret : Int)
  | fdWrite (req : Nat) (ret : Int)
  | diagShort (got : Int) (want : Nat)
  | diagShortW (got : Nat) (want : Nat)
deriving DecidableEq

/-- External world one pump call runs against: the poll return value and
revents, the successive outcomes of read(2), and the successive return
values of write(2). -/
structure World where
  pollRet : Int
  revents : Nat
  reads : List ReadRes
  writes : List Int
deriving DecidableEq

/-- The read-readiness fill loop of the pump: while the encrypted-in
buffer has write capacity, read from the transport (at most the capacity,
at most the 2048-byte scratch buffer) and write the bytes through into the
buffer.  EAGAIN stops the loop; any other read failure aborts the whole
pump call (first component false).  An exhausted read oracle and a read
that returns no bytes are both treated as no-more-data-now. -/
def rxPhase : List ReadRes → BioPair → Bool × BioPair × List Act
  | [], pr => (true, pr, [])
  | r :: rest, pr =>
    if net_rx_space pr = 0 then (true, pr, [])
    else
      match r with
      | .errAgain => (true, pr, [.fdRead (-1)])
      | .errOther => (false, pr, [.fdRead (-1)])
      | .ok bs =>
        let chunk := bs.take (min (net_rx_space pr) 2048)
        if chunk.length = 0 then (true, pr, [.fdRead 0])
        else
          let wr := write_net_rx pr chunk
          let here : List Act :=
            .fdRead chunk.length ::
              (if wr.1 < chunk.length then [.diagShortW wr.1 chunk.length] else [])
          let rest2 := rxPhase rest wr.2
          (rest2.1, rest2.2.1, here ++ rest2.2.2)

/-- The write-readiness drain loop of the pump: repeatedly take up to 2048
bytes out of the encrypted-out buffer and write them to the transport.  A
write result smaller than the drained chunk only emits a diagnostic; the
loop continues and the drained bytes stay consumed.  An exhausted write
oracle is modelled as a full write. -/
def txPhase (pr : BioPair) (ws : List Int) : BioPair × List Act :=
  if h : ((read_net_tx pr 2048).1).length = 0 then (pr, [])
  else
    let chunk := (read_net_tx pr 2048).1
    let pr1 := (read_net_tx pr 2048).2
    let l2 : Int :=
      match ws with
      | [] => chunk.length
      | w :: _ => w
    let here : List Act :=
      .fdWrite chunk.length l2 ::
        (if l2 < (chunk.length : Int) then [.diagShort l2 chunk.length] else [])
    let rest := txPhase pr1 ws.tail
    (rest.1, here ++ rest.2)
termination_by net_tx_avail pr
decreasing_by
  simp only [read_net_tx, net_tx_avail, List.length_drop]
  simp only [read_net_tx, List.length_take] at h
  omega

/-- The wait set the pump actually polls for: caller events intersected
with POLLIN and POLLERR, POLLIN suppressed when the encrypted-in buffer
has no capacity (the complement of POLLIN is taken in the 16-bit short
field of pollfd events), POLLOUT forced on when the encrypted-out buffer
has pending bytes. -/
def pumpEvents (pr : BioPair) (events : Nat) : Nat :=
  let e0 := events &&& (POLLIN ||| POLLERR)
  let e1 := if net_rx_space pr = 0 then e0 &&& (65535 ^^^ POLLIN) else e0
  if 0 < net_tx_avail pr then e1 ||| POLLOUT else e1

/-- One pump call: compute the wait set; if neither POLLIN nor POLLOUT
remains, return 1 immediately with no actions; otherwise poll (0 means
timeout, returning -1), then run the fill loop on read-readiness and the
drain loop on write-readiness.  Returns the pump result, the connection
after the call and the list of performed actions. -/
def pump (conn : APP_CONN) (events : Nat) (timeout : Int) (w : World) :
    Int × APP_CONN × List Act :=
  let ev := pumpEvents conn.pair events
  if ev &&& (POLLIN ||| POLLOUT) = 0 then (1, conn, [])
  else if w.pollRet = 0 then (-1, conn, [.polled ev timeout])
  else
    let rxr :=
      if w.revents &&& POLLIN ≠ 0 then rxPhase w.reads conn.pair
      else (true, conn.pair, [])
    if rxr.1 = false then
      (-1, { conn with pair := rxr.2.1 }, .polled ev timeout :: rxr.2.2)
    else
      let txr :=
        if w.revents &&& POLLOUT ≠ 0 then txPhase rxr.2.1 w.writes
        else (rxr.2.1, [])
      (1, { conn with pair := txr.1 }, .polled ev timeout :: (rxr.2.2 ++ txr.2))

/-- Checks that every short transport write in an action trace is followed
immediately by the matching diagnostic. -/
def diagOk : List Act → Bool
  | [] => true
  | .fdWrite l l2 :: rest =>
    if l2 < (l : Int) then
      match rest with
      | .diagShort a b :: rest2 => a == l2 && b == l && diagOk rest2
      | _ => false
    else
      diagOk rest
  | _ :: rest => diagOk rest

end Mem

/-- Concrete descriptor-binding connection used in witnesses. -/
def fdC0 : FD.APP_CONN := ⟨3, false, false⟩

/-- Concrete buffer pair (empty, capacity 4) used in witnesses. -/
def pr0 : Mem.BioPair := ⟨[], 4, []⟩

/-- Concrete memory-binding connection used in witnesses. -/
def memC0 : Mem.APP_CONN := ⟨false, false, pr0⟩

/-- Memory-binding connection carrying a stale tx_need_rx hint from an
earlier call. -/
def memCtx : Mem.APP_CONN := ⟨false, true, pr0⟩

/-- Buffer pair whose encrypted-in side is full and encrypted-out side is
empty. -/
def prFull : Mem.BioPair := ⟨[7, 7], 2, []⟩

/-- Memory-binding connection built on prFull. -/
def memCFull : Mem.APP_CONN := ⟨false, false, prFull⟩

/-- World for the pump no-op witness (never consulted by the call). -/
def w0 : Mem.World := ⟨1, 0, [], []⟩

/-- Buffer pair with three encrypted bytes queued for the network. -/
def pr7 : Mem.BioPair := ⟨[], 4, [1, 2, 3]⟩

/-- Memory-binding connection built on pr7. -/
def c7conn : Mem.APP_CONN := ⟨false, false, pr7⟩

/-- World whose poll reports write readiness and whose transport accepts
only 2 of the 3 bytes handed to write(2). -/
def w7 : Mem.World := ⟨1, 4, [], [2]⟩

/-- Buffer pair with one encrypted byte queued for the network. -/
def prW7 : Mem.BioPair := ⟨[], 2, [9]⟩

/-- Memory-binding connection built on prW7. -/
def cW7 : Mem.APP_CONN := ⟨false, false, prW7⟩

/-- World whose poll reports write readiness and whose transport accepts
the single byte in full. -/
def wW7 : Mem.World := ⟨1, 4, [], [1]⟩

/-- C1: for every connection and buffer of requested length, a single
descriptor-binding tx call returns exactly one of three outcomes: on
progress a positive byte count bounded by the requested length; the
would-block sentinel -2 exactly when the would-block cause of the engine
is NeedRead, NeedWrite or NeedConnect; the fatal sentinel -1 for every
other engine error; and no other value. -/
theorem C1_tx_classification (conn : FD.APP_CONN) (resp : EngineResp)
    (buf_len : Int) (hret : resp.ret ≤ buf_len) :
    (0 < (FD.tx conn resp).2 →
      (FD.tx conn resp).2 = resp.ret ∧ (FD.tx conn resp).2 ≤ buf_len)
    ∧ ((FD.tx conn resp).2 = -2 ↔
      (engineCause resp = some .NeedRead ∨ engineCause resp = some .NeedWrite
        ∨ engineCause resp = some .NeedConnect))
    ∧ ((FD.tx conn resp).2 = -1 ↔
      (resp.ret ≤ 0 ∧ engineCause resp = none))
    ∧ (0 < (FD.tx conn resp).2 ∨ (FD.tx conn resp).2 = -2
        ∨ (FD.tx conn resp).2 = -1) := by
  rcases resp with ⟨ret, err⟩
  by_cases hr : ret ≤ 0
  · cases err <;> simp [FD.tx, engineCause, hr]
  · simp [FD.tx, engineCause, hr, hret]
    omega

/-- C1 witness: the classification at a concrete progress response. -/
theorem C1_tx_classification_witness :
    (0 < (FD.tx fdC0 ⟨5, .other⟩).2 →
      (FD.tx fdC0 ⟨5, .other⟩).2 = (5 : Int) ∧ (FD.tx fdC0 ⟨5, .other⟩).2 ≤ 10)
    ∧ ((FD.tx fdC0 ⟨5, .other⟩).2 = -2 ↔
      (engineCause ⟨5, .other⟩ = some .NeedRead
        ∨ engineCause ⟨5, .other⟩ = some .NeedWrite
        ∨ engineCause ⟨5, .other⟩ = some .NeedConnect))
    ∧ ((FD.tx fdC0 ⟨5, .other⟩).2 = -1 ↔
      ((5 : Int) ≤ 0 ∧ engineCause ⟨5, .other⟩ = none))
    ∧ (0 < (FD.tx fdC0 ⟨5, .other⟩).2 ∨ (FD.tx fdC0 ⟨5, .other⟩).2 = -2
        ∨ (FD.tx fdC0 ⟨5, .other⟩).2 = -1) :=
  C1_tx_classification fdC0 ⟨5, .other⟩ 10 (by norm_num)

/-- C2 counterexample: in the memory-binding variant a tx call whose
outcome is would-block with cause NeedWrite, made on a connection whose
tx_need_rx is already set, leaves tx_need_rx true, and so does a fatal
call; the claimed reset at the start of each call does not happen there. -/
theorem C2_flag_cex :
    (Mem.tx memCtx ⟨-1, .want_write⟩ pr0).2 = -2
    ∧ engineCause ⟨-1, .want_write⟩ = some .NeedWrite
    ∧ (Mem.tx memCtx ⟨-1, .want_write⟩ pr0).1.tx_need_rx = true
    ∧ (Mem.tx memCtx ⟨-1, .other⟩ pr0).2 = -1
    ∧ (Mem.tx memCtx ⟨-1, .other⟩ pr0).1.tx_need_rx = true := by decide

/-- C2 amended: in the descriptor-binding variant, after any single tx
call tx_need_rx is true exactly when that call was would-block with cause
NeedRead (and symmetrically rx_need_tx for rx with NeedWrite); in the
memory-binding variant the flag is set on would-block NeedRead, cleared
only on progress, and otherwise keeps its previous value. -/
theorem C2_flag_amended :
    (∀ (c : FD.APP_CONN) (r : EngineResp),
      ((FD.tx c r).1.tx_need_rx = true ↔
        ((FD.tx c r).2 = -2 ∧ engineCause r = some .NeedRead))
      ∧ ((FD.rx c r).1.rx_need_tx = true ↔
        ((FD.rx c r).2 = -2 ∧ engineCause r = some .NeedWrite)))
    ∧ (∀ (c : Mem.APP_CONN) (r : EngineResp) (pa : Mem.BioPair),
      (Mem.tx c r pa).1.tx_need_rx =
        (if 0 < r.ret then false
          else if engineCause r = some .NeedRead then true
          else c.tx_need_rx)
      ∧ (Mem.rx c r pa).1.rx_need_tx =
        (if 0 < r.ret then false
          else if engineCause r = some .NeedWrite then true
          else c.rx_need_tx)) := by
  constructor
  · intro c r
    rcases r with ⟨ret, err⟩
    by_cases hr : ret ≤ 0
    · cases err <;> simp [FD.tx, FD.rx, engineCause, hr]
    · simp [FD.tx, FD.rx, engineCause, hr]
  · intro c r pa
    rcases r with ⟨ret, err⟩
    by_cases hr : ret ≤ 0
    · cases err <;> simp [Mem.tx, Mem.rx, engineCause, hr]
    · simp [Mem.tx, Mem.rx, engineCause, hr]

/-- C4 counterexample: a would-block cause NeedConnect during rx yields
the fatal sentinel -1, not the would-block sentinel -2, in both
variants. -/
theorem C4_need_connect_cex :
    engineCause ⟨-1, .want_connect⟩ = some .NeedConnect
    ∧ (FD.rx fdC0 ⟨-1, .want_connect⟩).2 = -1
    ∧ (Mem.rx memC0 ⟨-1, .want_connect⟩ pr0).2 = -1
    ∧ ((-1 : Int) ≠ -2) := by decide

/-- C4 amended: rx returns the would-block sentinel -2 for the causes
NeedRead and NeedWrite; a NeedConnect signal during rx is classified as
fatal (-1) in both variants. -/
theorem C4_rx_amended (cf : FD.APP_CONN) (cm : Mem.APP_CONN)
    (r : EngineResp) (pa : Mem.BioPair) :
    ((engineCause r = some .NeedRead ∨ engineCause r = some .NeedWrite) →
      ((FD.rx cf r).2 = -2 ∧ (Mem.rx cm r pa).2 = -2))
    ∧ (engineCause r = some .NeedConnect →
      ((FD.rx cf r).2 = -1 ∧ (Mem.rx cm r pa).2 = -1)) := by
  rcases r with ⟨ret, err⟩
  by_cases hr : ret ≤ 0
  · cases err <;> simp [FD.rx, Mem.rx, engineCause, hr]
  · simp [FD.rx, Mem.rx, engineCause, hr]

/-- C4 witness: a NeedRead would-block during rx at a concrete input. -/
theorem C4_rx_amended_witness :
    (FD.rx fdC0 ⟨-1, .want_read⟩).2 = -2
    ∧ (Mem.rx memC0 ⟨-1, .want_read⟩ pr0).2 = -2 :=
  (C4_rx_amended fdC0 memC0 ⟨-1, .want_read⟩ pr0).1 (Or.inl (by decide))

/-- C5 counterexample: the value rx returns on orderly peer close
(SSL_ERROR_ZERO_RETURN) equals the value it returns on a fatal engine
error; the two outcomes are not distinct. -/
theorem C5_peer_closed_cex :
    (FD.rx fdC0 ⟨0, .zero_return⟩).2 = (FD.rx fdC0 ⟨-1, .other⟩).2
    ∧ (FD.rx fdC0 ⟨0, .zero_return⟩).2 = -1 := by decide

/-- C5 amended: rx maps orderly peer close to the same fatal sentinel -1
as any other fatal engine error; peer close is distinct from the
would-block sentinel and from progress, but not from fatal. -/
theorem C5_rx_peer_closed_amended (c : FD.APP_CONN) (ret retF : Int)
    (h : ret ≤ 0) (hF : retF ≤ 0) :
    (FD.rx c ⟨ret, .zero_return⟩).2 = -1
    ∧ (FD.rx c ⟨ret, .zero_return⟩).2 = (FD.rx c ⟨retF, .other⟩).2
    ∧ (FD.rx c ⟨ret, .zero_return⟩).2 ≠ -2 := by
  simp [FD.rx, h, hF]

/-- C5 witness: the amended statement at a concrete input. -/
theorem C5_rx_peer_closed_amended_witness :
    (FD.rx fdC0 ⟨0, .zero_return⟩).2 = -1
    ∧ (FD.rx fdC0 ⟨0, .zero_return⟩).2 = (FD.rx fdC0 ⟨-1, .other⟩).2
    ∧ (FD.rx fdC0 ⟨0, .zero_return⟩).2 ≠ -2 :=
  C5_rx_peer_closed_amended fdC0 0 (-1) (by norm_num) (by norm_num)

/-- C8 counterexample: the memory-binding teardown performs no orderly
close notification attempt at all; it only releases resources. -/
theorem C8_teardown_cex : Mem.teardown.any isCloseNotify = false := by
  decide

/-- C8 amended: under descriptor binding, teardown first attempts the
best-effort close notification and then releases the engine and the
connection record regardless of whether the attempt succeeded; under
memory binding, teardown releases the engine, both halves of the buffer
pair and the connection record, without attempting a close
notification. -/
theorem C8_teardown_amended :
    (∀ ok : Bool,
      (FD.teardown ok).head? = some (.closeNotify ok)
      ∧ TdAct.freeEngine ∈ FD.teardown ok
      ∧ TdAct.freeConnRec ∈ FD.teardown ok)
    ∧ (TdAct.freeEngine ∈ Mem.teardown
      ∧ TdAct.freeInternalBio ∈ Mem.teardown
      ∧ TdAct.freeNetBio ∈ Mem.teardown
      ∧ TdAct.freeConnRec ∈ Mem.teardown
      ∧ Mem.teardown.any isCloseNotify = false) := by
  refine ⟨fun ok => ?_, by decide⟩
  cases ok <;> decide

/-- A value below 16 has no bits from position 4 on. -/
theorem testBit_lt16 (x n : Nat) (h : x < 16) : x.testBit (n + 4) = false := by
  apply Nat.testBit_eq_false_of_lt
  calc x < 16 := h
    _ = 2 ^ 4 := by norm_num
    _ ≤ 2 ^ (n + 4) := Nat.pow_le_pow_right (by norm_num) (by omega)

/-- Bits of the event set 13 = POLLIN + POLLOUT + POLLERR. -/
theorem testBit13 (i : Nat) : Nat.testBit 13 i = decide (i = 0 ∨ i = 2 ∨ i = 3) := by
  match i with
  | 0 => decide
  | 1 => decide
  | 2 => decide
  | 3 => decide
  | n + 4 =>
    rw [testBit_lt16 13 n (by norm_num)]
    symm
    rw [decide_eq_false_iff_not]
    omega

/-- Bits of the event set 12 = POLLOUT + POLLERR. -/
theorem testBit12 (i : Nat) : Nat.testBit 12 i = decide (i = 2 ∨ i = 3) := by
  match i with
  | 0 => decide
  | 1 => decide
  | 2 => decide
  | 3 => decide
  | n + 4 =>
    rw [testBit_lt16 12 n (by norm_num)]
    symm
    rw [decide_eq_false_iff_not]
    omega

/-- Bits of the event set 9 = POLLIN + POLLERR. -/
theorem testBit9 (i : Nat) : Nat.testBit 9 i = decide (i = 0 ∨ i = 3) := by
  match i with
  | 0 => decide
  | 1 => decide
  | 2 => decide
  | 3 => decide
  | n + 4 =>
    rw [testBit_lt16 9 n (by norm_num)]
    symm
    rw [decide_eq_false_iff_not]
    omega

/-- Masking with POLLIN + POLLERR leaves bit 0 unchanged. -/
theorem and9_testBit0 (e : Nat) :
    (e &&& (POLLIN ||| POLLERR)).testBit 0 = e.testBit 0 := by
  rw [Nat.testBit_land, (by decide : Nat.testBit (POLLIN ||| POLLERR) 0 = true),
    Bool.and_true]

/-- Masking with POLLIN + POLLERR leaves bit 3 unchanged. -/
theorem and9_testBit3 (e : Nat) :
    (e &&& (POLLIN ||| POLLERR)).testBit 3 = e.testBit 3 := by
  rw [Nat.testBit_land, (by decide : Nat.testBit (POLLIN ||| POLLERR) 3 = true),
    Bool.and_true]

/-- After masking with POLLIN + POLLERR and clearing POLLIN, neither
POLLIN nor POLLOUT can remain. -/
theorem mask9 (e : Nat) :
    ((e &&& (POLLIN ||| POLLERR)) &&& (65535 ^^^ POLLIN))
      &&& (POLLIN ||| POLLOUT) = 0 := by
  have hb : e &&& (POLLIN ||| POLLERR) ≤ 9 := Nat.and_le_right
  have hid : (e &&& (POLLIN ||| POLLERR)) &&& (POLLIN ||| POLLERR)
      = e &&& (POLLIN ||| POLLERR) := by
    rw [Nat.and_assoc,
      (by decide : (POLLIN ||| POLLERR) &&& (POLLIN ||| POLLERR) = POLLIN ||| POLLERR)]
  generalize e &&& (POLLIN ||| POLLERR) = k at hb hid ⊢
  interval_cases k <;> revert hid <;> decide

/-- Bit membership of the tx readiness mask, as a function of the flag. -/
theorem pending_tx_testBit (b : Bool) (i : Nat) :
    ((if b then POLLIN else 0) ||| POLLOUT ||| POLLERR).testBit i = true ↔
      (i = 2 ∨ i = 3 ∨ (i = 0 ∧ b = true)) := by
  cases b
  · rw [(by decide : ((if false then POLLIN else 0) ||| POLLOUT ||| POLLERR : Nat) = 12),
      testBit12]
    simp
  · rw [(by decide : ((if true then POLLIN else 0) ||| POLLOUT ||| POLLERR : Nat) = 13),
      testBit13]
    simp
    omega

/-- Bit membership of the rx readiness mask, as a function of the flag. -/
theorem pending_rx_testBit (b : Bool) (i : Nat) :
    ((if b then POLLOUT else 0) ||| POLLIN ||| POLLERR).testBit i = true ↔
      (i = 0 ∨ i = 3 ∨ (i = 2 ∧ b = true)) := by
  cases b
  · rw [(by decide : ((if false then POLLOUT else 0) ||| POLLIN ||| POLLERR : Nat) = 9),
      testBit9]
    simp
  · rw [(by decide : ((if true then POLLOUT else 0) ||| POLLIN ||| POLLERR : Nat) = 13),
      testBit13]
    simp
    omega

/-- C3: in both variants, the tx readiness query returns exactly the
event set containing Writable (bit 2) and Error (bit 3), plus Readable
(bit 0) exactly when tx_need_rx is set, and the rx readiness query
returns exactly Readable and Error plus Writable exactly when rx_need_tx
is set; both queries depend only on the respective flag, so two calls
with no intervening tx or rx return the same event set. -/
theorem C3_readiness :
    (∀ (c : FD.APP_CONN),
      (∀ i, (FD.get_conn_pending_tx c).testBit i = true ↔
        (i = 2 ∨ i = 3 ∨ (i = 0 ∧ c.tx_need_rx = true)))
      ∧ (∀ i, (FD.get_conn_pending_rx c).testBit i = true ↔
        (i = 0 ∨ i = 3 ∨ (i = 2 ∧ c.rx_need_tx = true))))
    ∧ (∀ (m : Mem.APP_CONN),
      (∀ i, (Mem.get_conn_pending_tx m).testBit i = true ↔
        (i = 2 ∨ i = 3 ∨ (i = 0 ∧ m.tx_need_rx = true)))
      ∧ (∀ i, (Mem.get_conn_pending_rx m).testBit i = true ↔
        (i = 0 ∨ i = 3 ∨ (i = 2 ∧ m.rx_need_tx = true))))
    ∧ (∀ (c c2 : FD.APP_CONN), c.tx_need_rx = c2.tx_need_rx →
        FD.get_conn_pending_tx c = FD.get_conn_pending_tx c2)
    ∧ (∀ (c c2 : FD.APP_CONN), c.rx_need_tx = c2.rx_need_tx →
        FD.get_conn_pending_rx c = FD.get_conn_pending_rx c2)
    ∧ (∀ (m m2 : Mem.APP_CONN), m.tx_need_rx = m2.tx_need_rx →
        Mem.get_conn_pending_tx m = Mem.get_conn_pending_tx m2)
    ∧ (∀ (m m2 : Mem.APP_CONN), m.rx_need_tx = m2.rx_need_tx →
        Mem.get_conn_pending_rx m = Mem.get_conn_pending_rx m2) := by
  refine ⟨fun c => ⟨fun i => ?_, fun i => ?_⟩, fun m => ⟨fun i => ?_, fun i => ?_⟩,
    fun c c2 h => ?_, fun c c2 h => ?_, fun m m2 h => ?_, fun m m2 h => ?_⟩
  · exact pending_tx_testBit c.tx_need_rx i
  · exact pending_rx_testBit c.rx_need_tx i
  · exact pending_tx_testBit m.tx_need_rx i
  · exact pending_rx_testBit m.rx_need_tx i
  · simp [FD.get_conn_pending_tx, h]
  · simp [FD.get_conn_pending_rx, h]
  · simp [Mem.get_conn_pending_tx, h]
  · simp [Mem.get_conn_pending_rx, h]

/-- C3 witness: the readiness characterization at a concrete connection
and a concrete repeated call. -/
theorem C3_readiness_witness :
    ((FD.get_conn_pending_tx fdC0).testBit 2 = true ↔
      ((2 : Nat) = 2 ∨ (2 : Nat) = 3 ∨ ((2 : Nat) = 0 ∧ fdC0.tx_need_rx = true)))
    ∧ FD.get_conn_pending_tx fdC0 = FD.get_conn_pending_tx fdC0 :=
  ⟨(C3_readiness.1 fdC0).1 2, C3_readiness.2.2.1 fdC0 fdC0 rfl⟩

/-- C6: a memory-binding pump call on a connection whose encrypted-out
buffer is empty and whose encrypted-in buffer has no write capacity
performs no poll wait and no transport read or write, leaves the
connection (buffer pair included) unchanged, and returns the no-op
success outcome 1, for every caller event set, timeout and world. -/
theorem C6_pump_noop (conn : Mem.APP_CONN) (events : Nat) (timeout : Int)
    (w : Mem.World) (hout : Mem.net_tx_avail conn.pair = 0)
    (hin : Mem.net_rx_space conn.pair = 0) :
    Mem.pump conn events timeout w = (1, conn, []) := by
  have h1 : Mem.pumpEvents conn.pair events
      = (events &&& (POLLIN ||| POLLERR)) &&& (65535 ^^^ POLLIN) := by
    simp [Mem.pumpEvents, hin, hout]
  have hev : Mem.pumpEvents conn.pair events &&& (POLLIN ||| POLLOUT) = 0 := by
    rw [h1]
    exact mask9 events
  simp [Mem.pump, hev]

/-- C6 witness: the no-op property at a concrete full-in empty-out
connection. -/
theorem C6_pump_noop_witness :
    Mem.pump memCFull 9 1000 w0 = (1, memCFull, []) :=
  C6_pump_noop memCFull 9 1000 w0 (by decide) (by decide)

/-- C10: the wait set the memory pump computes is the caller event set
intersected with Readable and Error only: Writable is included exactly
when the encrypted-out buffer has pending bytes (caller write interest is
discarded), Readable exactly when the caller requested it and the
encrypted-in buffer has write capacity, and Error exactly when the caller
requested it. -/
theorem C10_pump_wait_set (pr : Mem.BioPair) (events : Nat) :
    Mem.pumpEvents pr events =
      (if events.testBit 0 = true ∧ Mem.net_rx_space pr ≠ 0 then POLLIN else 0)
      ||| (if 0 < Mem.net_tx_avail pr then POLLOUT else 0)
      ||| (if events.testBit 3 = true then POLLERR else 0) := by
  have hb : events &&& (POLLIN ||| POLLERR) ≤ 9 := Nat.and_le_right
  have hid : (events &&& (POLLIN ||| POLLERR)) &&& (POLLIN ||| POLLERR)
      = events &&& (POLLIN ||| POLLERR) := by
    rw [Nat.and_assoc,
      (by decide : (POLLIN ||| POLLERR) &&& (POLLIN ||| POLLERR) = POLLIN ||| POLLERR)]
  rw [← and9_testBit0 events, ← and9_testBit3 events]
  by_cases hs : Mem.net_rx_space pr = 0 <;> by_cases ha : 0 < Mem.net_tx_avail pr <;>
    simp only [Mem.pumpEvents, hs, ha, if_true, if_false, ite_true, ite_false,
      ne_eq, not_true_eq_false, and_false, if_pos, if_neg, not_false_eq_true,
      and_true] <;>
    generalize events &&& (POLLIN ||| POLLERR) = k at hb hid ⊢ <;>
    interval_cases k <;> revert hid <;> decide

/-- Every short transport write in the drain loop trace is followed
immediately by its diagnostic, for every buffer state and write oracle. -/
theorem diagOk_txPhase (pr : Mem.BioPair) (ws : List Int) :
    Mem.diagOk (Mem.txPhase pr ws).2 = true := by
  induction pr, ws using Mem.txPhase.induct with
  | case1 pr ws h =>
    rw [Mem.txPhase]
    simp [h, Mem.diagOk]
  | case2 pr ws h pr1 ih =>
    rw [Mem.txPhase]
    simp only [dif_neg h]
    cases ws with
    | nil =>
      have ih2 : Mem.diagOk (Mem.txPhase (Mem.read_net_tx pr 2048).2 []).2 = true := ih
      rw [Mem.diagOk.eq_def]
      simp [ih2]
    | cons w rest =>
      have ih2 : Mem.diagOk (Mem.txPhase (Mem.read_net_tx pr 2048).2 rest).2 = true := ih
      by_cases hshort : w < (((Mem.read_net_tx pr 2048).1).length : Int)
      · rw [Mem.diagOk.eq_def]
        simp [hshort, ih2]
      · rw [Mem.diagOk.eq_def]
        simp [hshort, ih2]

/-- C7 counterexample: a pump call whose drain loop hands 3 bytes to the
transport and sees only 2 accepted still returns the success outcome 1;
the short write surfaces only as a diagnostic in the trace. -/
theorem C7_short_write_cex :
    (Mem.pump c7conn 0 1000 w7).1 = 1
    ∧ (Mem.pump c7conn 0 1000 w7).2.2 =
      [.polled 4 1000, .fdWrite 3 2, .diagShort 2 3] := by
  constructor <;>
    simp [Mem.pump, Mem.pumpEvents, Mem.rxPhase, Mem.txPhase, Mem.net_rx_space,
      Mem.net_tx_avail, Mem.read_net_tx, c7conn, pr7, w7, POLLIN, POLLOUT, POLLERR]

/-- C7 amended: when the poll of a pump call succeeds and reports no read
readiness, the pump returns the success outcome 1 whatever the transport
write results were; every short write in the drain loop is surfaced as a
diagnostic in the trace immediately after the write, but never in the
return value. -/
theorem C7_short_write_amended (conn : Mem.APP_CONN) (events : Nat)
    (t : Int) (w : Mem.World) (hp : w.pollRet ≠ 0)
    (hin : w.revents &&& POLLIN = 0) :
    (Mem.pump conn events t w).1 = 1
    ∧ Mem.diagOk (Mem.pump conn events t w).2.2 = true := by
  by_cases hev : Mem.pumpEvents conn.pair events &&& (POLLIN ||| POLLOUT) = 0
  · simp [Mem.pump, hev, Mem.diagOk]
  · by_cases hout : w.revents &&& POLLOUT = 0
    · simp [Mem.pump, hev, hp, hin, hout, Mem.diagOk]
    · simp [Mem.pump, hev, hp, hin, hout, Mem.diagOk, diagOk_txPhase]

/-- C7 witness: the amended statement at a concrete world whose poll
succeeds with write readiness. -/
theorem C7_short_write_amended_witness :
    (Mem.pump cW7 0 500 wW7).1 = 1
    ∧ Mem.diagOk (Mem.pump cW7 0 500 wW7).2.2 = true :=
  C7_short_write_amended cW7 0 500 wW7 (by decide) (by decide)

/-- C9: resource accounting of connection creation at every failure
point.  The memory-binding variant leaks the network half of the buffer
pair when SSL_set1_host, SSL_set_tlsext_host_name or BIO_new fails, and
leaks both the connection record and the network half when BIO_set_ssl
fails; the descriptor-binding variant leaks nothing. -/
theorem C9_new_conn_leak_eval :
    leaked (Mem.new_conn .set1HostF).2 = [.netBio]
    ∧ leaked (Mem.new_conn .tlsextF).2 = [.netBio]
    ∧ leaked (Mem.new_conn .bioNewF).2 = [.netBio]
    ∧ leaked (Mem.new_conn .bioSetSslF).2 = [.connRec, .netBio]
    ∧ leaked (Mem.new_conn .callocF).2 = []
    ∧ leaked (Mem.new_conn .sslNewF).2 = []
    ∧ leaked (Mem.new_conn .bioPairF).2 = []
    ∧ leaked (FD.new_conn .callocF).2 = []
    ∧ leaked (FD.new_conn .sslNewF).2 = []
    ∧ leaked (FD.new_conn .setFdF).2 = []
    ∧ leaked (FD.new_conn .set1HostF).2 = []
    ∧ leaked (FD.new_conn .tlsextF).2 = [] := by
  decide

end DDD
